import Mathlib

/-!
Verification of the pynams diffusion core (diffusion.py, diffusion/arrhenius.py).

Shallow embedding: numpy floating-point arrays become lists of real numbers,
vectorised numpy arithmetic becomes `List.map` / `Finset.sum`, lmfit parameter
objects become explicit records, and Python `print` output is collected into a
`List String` log returned alongside the result.  Functions that can `return
None` / `return False` in Python return a sum-type with dedicated
constructors.  `scipy.special.erf` is modelled by its defining integral.
-/

open MeasureTheory intervalIntegral Filter Topology

noncomputable section

namespace Pynams

open scoped Classical

/-- The error function, `scipy.special.erf`:
`erf x = 2/√π · ∫ t in 0..x, exp (-t²)`. -/
def erf (x : ℝ) : ℝ := 2 / Real.sqrt Real.pi * ∫ t in (0:ℝ)..x, Real.exp (-t ^ 2)

/-- `numpy.linspace lo hi num` at index `i` (with endpoint, numpy's default):
`lo + (hi - lo) * i / (num - 1)`.  For `num = 1` the real division by zero
yields `lo`, matching numpy's single-sample behaviour. -/
def linspace (lo hi : ℝ) (num : ℕ) (i : ℕ) : ℝ :=
  lo + (hi - lo) * i / ((num : ℝ) - 1)

/-- The full `numpy.linspace lo hi num` array as a list. -/
def linspaceList (lo hi : ℝ) (num : ℕ) : List ℝ :=
  (List.range num).map (linspace lo hi num)

/-- `GAS_CONSTANT = 0.00831` kJ/mol K, shared by diffusion.py and arrhenius.py. -/
def GAS_CONSTANT : ℝ := 0.00831

/-- The time array of `diffusionThinSlab`:
`t_hours = np.linspace(0., max_time_hours, timesteps)`. -/
def diffusionThinSlab_t_hours (max_time_hours : ℝ) (timesteps : ℕ) (idx : ℕ) : ℝ :=
  linspace 0 max_time_hours timesteps idx

/-- The `cc` array of `diffusionThinSlab` (diffusion.py lines 54-76) at index
`idx`: the truncated series
`Σ_{n<infinity} 8/((2n+1)²π²) · exp(-D (2n+1)² π² t / (4 L²))`
with `t = t_hours[idx] * 3600`, `L = thickness_microns / 2e6`,
`D = 10^log10D_m2s`. -/
def diffusionThinSlab_cc (log10D_m2s thickness_microns max_time_hours : ℝ)
    (infinity timesteps : ℕ) (idx : ℕ) : ℝ :=
  let t_seconds := diffusionThinSlab_t_hours max_time_hours timesteps idx * 3600
  let L_meters := thickness_microns / 2e6
  let D_m2s := (10 : ℝ) ^ log10D_m2s
  ∑ n ∈ Finset.range infinity,
    8 * (1 / ((2 * (n : ℝ) + 1) ^ 2 * Real.pi ^ 2)) *
      Real.exp (-(D_m2s * (2 * (n : ℝ) + 1) ^ 2 * Real.pi ^ 2 * t_seconds) /
        (4 * L_meters ^ 2))

/-- One lmfit parameter: a value, a vary flag, and an optional linkage
expression (the `expr` argument of `lmfit.Parameters.add`). -/
structure Param where
  value : ℝ
  vary : Bool
  expr : Option String

/-- The lmfit parameter set built by `params_setup1D`. -/
structure Params1D where
  microns : Param
  log10D_m2s : Param
  time_seconds : Param
  initial_unit_value : Param
  final_unit_value : Param

/-- `params_setup1D` (diffusion.py lines 80-91): length and time fixed,
diffusivity / initial / final varying per the given flags, no linkage. -/
def params_setup1D (microns log10D_m2s time_seconds init fin : ℝ)
    (vD vinit vfin : Bool) : Params1D :=
  { microns := { value := microns, vary := false, expr := none }
    log10D_m2s := { value := log10D_m2s, vary := vD, expr := none }
    time_seconds := { value := time_seconds, vary := false, expr := none }
    initial_unit_value := { value := init, vary := vinit, expr := none }
    final_unit_value := { value := fin, vary := vfin, expr := none } }

/-- Possible results of `diffusion1D_params`: Python `return` (None) on
negative time, `return False` on an unknown `erf_or_sum` keyword, the
`(x_microns, model)` pair, or the residual vector in fitting mode. -/
inductive Diffusion1DResult where
  | pyNone : Diffusion1DResult
  | pyFalse : Diffusion1DResult
  | profile (x_microns : List ℝ) (model : List ℝ) : Diffusion1DResult
  | residual (res : List ℝ) : Diffusion1DResult

/-- `diffusion1D_params` (diffusion.py lines 93-203).  Returns the list of
printed messages together with the result.  Data arrays are `Option`s
mirroring the `None` defaults; `fitting` is only switched on when both are
present with equal length, otherwise a complaint is printed and the
computation falls through to the no-data path, exactly as in the source. -/
def diffusion1D_params (params : Params1D)
    (data_x_microns data_y_unit_areas : Option (List ℝ))
    (erf_or_sum : String) (need_to_center_x_data : Bool)
    (infinity points : ℕ) : List String × Diffusion1DResult :=
  let L_meters := params.microns.value / 1e6
  let t := params.time_seconds.value
  let D := (10 : ℝ) ^ params.log10D_m2s.value
  let initial_value := params.initial_unit_value.value
  let final_value := params.final_unit_value.value
  let solubility := if initial_value > final_value then initial_value else final_value
  let minimum_value := if initial_value > final_value then final_value else initial_value
  let a_meters := L_meters / 2
  let twoA := L_meters
  if t < 0 then (["no negative time"], Diffusion1DResult.pyNone)
  else
    let fitting : Bool :=
      match data_x_microns, data_y_unit_areas with
      | some dx, some dy => dx.length == dy.length
      | _, _ => false
    let fitMsgs : List String :=
      match data_x_microns, data_y_unit_areas with
      | some dx, some dy =>
          if dx.length == dy.length then []
          else ["x and y data must be the same length",
                "x " ++ toString dx.length,
                "y " ++ toString dy.length]
      | _, _ => []
    let x : List ℝ :=
      if fitting then
        let xm := (data_x_microns.getD []).map (fun v => v / 1e6)
        if need_to_center_x_data then xm.map (fun v => v - a_meters) else xm
      else linspaceList (-a_meters) a_meters points
    let finishUp : List ℝ → List String × Diffusion1DResult := fun model0 =>
      let model1 := if initial_value > final_value then model0
        else model0.map (fun m => 1 - m)
      let concentration_range := solubility - minimum_value
      let model := model1.map (fun m => m * concentration_range + minimum_value)
      let x_microns := x.map (fun v => v * 1e6)
      if fitting then
        (fitMsgs, Diffusion1DResult.residual
          (List.zipWith (fun m d => m - d) model (data_y_unit_areas.getD [])))
      else (fitMsgs, Diffusion1DResult.profile x_microns model)
    if erf_or_sum = "infsum" then
      finishUp (x.map (fun xm =>
        (∑ n ∈ Finset.range infinity,
          ((-1 : ℝ)) ^ n / (2 * (n : ℝ) + 1) *
            Real.exp (-D * (2 * (n : ℝ) + 1) ^ 2 * Real.pi ^ 2 * t / twoA ^ 2) *
            Real.cos ((2 * (n : ℝ) + 1) * Real.pi * xm / twoA)) * 4 / Real.pi))
    else if erf_or_sum = "erf" then
      let sqrtDt := (D * t) ^ (0.5 : ℝ)
      finishUp (x.map (fun xm =>
        erf ((a_meters + xm) / (2 * sqrtDt)) +
          erf ((a_meters - xm) / (2 * sqrtDt)) - 1))
    else
      (fitMsgs ++ ["erf_or_sum must be set to either erf or sum"],
        Diffusion1DResult.pyFalse)

/-- The lmfit parameter set built by `params_setup3D`.  `microns3` is the
list-valued `'microns3'` parameter; the scalar parameters keep their `add`
order from the source. -/
structure Params3D where
  microns3 : List ℝ
  log10Dx : Param
  time_seconds : Param
  initial_unit_value : Param
  final_unit_value : Param
  log10Dy : Param
  log10Dz : Param

/-- `params_setup3D` (diffusion.py lines 277-304).  `isotropic` links the y-
and z-diffusivities to `log10Dx`; otherwise `slowb` links y to
`log10Dx - 1.` and z to `log10Dx`; otherwise no linkage.  Out-of-range list
access is a caller contract violation in the source (an IndexError); it is
totalised here with `getD`. -/
def params_setup3D (microns3 log10D3 : List ℝ) (time_seconds initial final : ℝ)
    (isotropic slowb : Bool) (vD : List Bool) (vinit vfin : Bool) : Params3D :=
  { microns3 := microns3
    log10Dx := { value := log10D3.getD 0 0, vary := vD.getD 0 true, expr := none }
    time_seconds := { value := time_seconds, vary := false, expr := none }
    initial_unit_value := { value := initial, vary := vinit, expr := none }
    final_unit_value := { value := final, vary := vfin, expr := none }
    log10Dy :=
      if isotropic then
        { value := log10D3.getD 1 0, vary := vD.getD 1 true, expr := some "log10Dx" }
      else if slowb then
        { value := log10D3.getD 1 0, vary := vD.getD 1 true, expr := some "log10Dx - 1." }
      else { value := log10D3.getD 1 0, vary := vD.getD 1 true, expr := none }
    log10Dz :=
      if isotropic then
        { value := log10D3.getD 2 0, vary := vD.getD 2 true, expr := some "log10Dx" }
      else if slowb then
        { value := log10D3.getD 2 0, vary := vD.getD 2 true, expr := some "log10Dx" }
      else { value := log10D3.getD 2 0, vary := vD.getD 2 true, expr := none } }

/-- The value `params.valuesdict()['log10Dy']`: lmfit re-evaluates the
linkage expression.  Only the two expressions actually constructed by
`params_setup3D` occur; they are interpreted here. -/
def Params3D.log10DyVal (p : Params3D) : ℝ :=
  match p.log10Dy.expr with
  | some e =>
      if e = "log10Dx" then p.log10Dx.value
      else if e = "log10Dx - 1." then p.log10Dx.value - 1
      else p.log10Dy.value
  | none => p.log10Dy.value

/-- The value `params.valuesdict()['log10Dz']`, as for `log10DyVal`. -/
def Params3D.log10DzVal (p : Params3D) : ℝ :=
  match p.log10Dz.expr with
  | some e =>
      if e = "log10Dx" then p.log10Dx.value
      else if e = "log10Dx - 1." then p.log10Dx.value - 1
      else p.log10Dz.value
  | none => p.log10Dz.value

/-- Results of `diffusion3Dnpi_params`: the `(v, sliceprofiles,
slice_positions_microns)` triple, the fitting stub (`np.zeros_like`, flagged
`NOT COMPLETELY SET UP FOR FITTING` in the source), or a crash when the
tuple-unpacking of an inner `diffusion1D_params` call fails (e.g. negative
time returned `None`). -/
inductive Diffusion3DnpiResult where
  | success (v : ℕ → ℕ → ℕ → ℝ) (sliceprofiles : List (List ℝ))
      (slice_positions_microns : List (List ℝ)) : Diffusion3DnpiResult
  | residualsStub (res : List (List ℝ)) : Diffusion3DnpiResult
  | crash : Diffusion3DnpiResult

/-- The per-axis `p1D` parameter set assembled inside `diffusion3Dnpi_params`
(diffusion.py lines 368-374). -/
def npiInnerParams (micronsK log10DK : ℝ) (varyDK : Bool) (t : ℝ) (varyT : Bool)
    (init2 : ℝ) (varyInit : Bool) (fin2 : ℝ) (varyFin : Bool) : Params1D :=
  { microns := { value := micronsK, vary := false, expr := none }
    log10D_m2s := { value := log10DK, vary := varyDK, expr := none }
    time_seconds := { value := t, vary := varyT, expr := none }
    initial_unit_value := { value := init2, vary := varyInit, expr := none }
    final_unit_value := { value := fin2, vary := varyFin, expr := none } }

/-- `diffusion3Dnpi_params` (diffusion.py lines 306-420).  The dense field
`v` is modelled as a function of three indices; entries outside
`[0, points)³` are never consulted.  `np.shape` equality of the (rectangular)
nested data arrays is modelled as equality of the lists of row lengths.
The inner 1D calls pass only `points` (the source forwards a kwdict holding
just `points`, so the inner method is always the default `'erf'`); the
source wraps the inner vary flags in singleton lists, a truthiness quirk
with no effect on any computed value. -/
def diffusion3Dnpi_params (params : Params3D)
    (data_x_microns data_y_unit_areas : Option (List (List ℝ)))
    (erf_or_sum : String) (centered : Bool) (infinity points : ℕ) :
    List String × Diffusion3DnpiResult :=
  let fitting : Bool :=
    match data_x_microns, data_y_unit_areas with
    | some dx, some dy => dx.map List.length == dy.map List.length
    | _, _ => false
  let fitMsgs : List String :=
    match data_x_microns, data_y_unit_areas with
    | some dx, some dy =>
        if dx.map List.length == dy.map List.length then ["fitting to data"]
        else ["x and y data must be the same shape",
              "x " ++ toString (dx.map List.length),
              "y " ++ toString (dy.map List.length)]
    | _, _ => []
  let L3_microns := params.microns3
  let t := params.time_seconds.value
  let init0 := params.initial_unit_value.value
  let fin0 := params.final_unit_value.value
  let log10D3 := [params.log10Dx.value, params.log10DyVal, params.log10DzVal]
  let vary_D := [params.log10Dx.vary, params.log10Dy.vary, params.log10Dz.vary]
  let scale := if init0 > 1 then init0 else 1
  let init1 := if init0 > 1 then 1 else init0
  let minimum_value := if init1 > fin0 then fin0 else init1
  let init2 := if init1 < fin0 then fin0 else init1
  let fin2 := if init1 < fin0 then init1 else fin0
  let prof : ℕ → List String × Diffusion1DResult := fun k =>
    diffusion1D_params
      (npiInnerParams (L3_microns.getD k 0) (log10D3.getD k 0) (vary_D.getD k true)
        t params.time_seconds.vary init2 params.initial_unit_value.vary
        fin2 params.final_unit_value.vary)
      none none "erf" true 100 points
  match (prof 0).2, (prof 1).2, (prof 2).2 with
  | Diffusion1DResult.profile _ y0, Diffusion1DResult.profile _ y1,
    Diffusion1DResult.profile _ y2 =>
      let v : ℕ → ℕ → ℕ → ℝ := fun d e f =>
        (y0.getD d 1 * y1.getD e 1 * y2.getD f 1) * scale
      let v2 : ℕ → ℕ → ℕ → ℝ :=
        if init1 < fin0 then fun d e f => (1 - v d e f) + minimum_value else v
      let mid := points / 2
      let aslice := (List.range points).map fun d => v2 d mid mid
      let bslice := (List.range points).map fun e => v2 mid e mid
      let cslice := (List.range points).map fun f => v2 mid mid f
      let slice_positions_microns := (List.range 3).map fun k =>
        let a := L3_microns.getD k 0 / 2
        if centered = false then linspaceList 0 (a * 2) points
        else linspaceList (-a) a points
      if fitting then
        (fitMsgs, Diffusion3DnpiResult.residualsStub
          ((List.range 3).map fun _ => List.replicate points 0))
      else
        (fitMsgs, Diffusion3DnpiResult.success v2 [aslice, bslice, cslice]
          slice_positions_microns)
  | _, _, _ => (fitMsgs, Diffusion3DnpiResult.crash)

/-- `numpy.argmin` inner loop: scan the remaining list, current index `i`,
best index `bi`, best value `bv`; a strictly smaller value replaces the
best, so the first minimum wins, as in numpy. -/
def np_argmin_go : List ℝ → ℕ → ℕ → ℝ → ℕ
  | [], _, bi, _ => bi
  | a :: rest, i, bi, bv =>
      if a < bv then np_argmin_go rest (i + 1) i a
      else np_argmin_go rest (i + 1) bi bv

/-- `numpy.argmin` on a list: index of the first minimal element (0 on the
empty array, where numpy would raise). -/
def np_argmin : List ℝ → ℕ
  | [] => 0
  | a :: rest => np_argmin_go rest 1 0 a

/-- The whole-block position arrays (diffusion.py lines 543-547): for each
direction, `np.linspace(0., 2.*a, points)` with `a = L3[k]/2`. -/
def wbPositions (L3 : List ℝ) (points : ℕ) : List (List ℝ) :=
  (List.range 3).map fun k =>
    let a := L3.getD k 0 / 2
    linspaceList 0 (2 * a) points

/-- Results of `diffusion3Dwb_params`: Python `return` (None) on a missing
or invalid ray path, the `(wb_positions, wb_profiles)` pair, the residual
vector in fitting mode, or a crash when unpacking the inner
`diffusion3Dnpi_params` result fails. -/
inductive Diffusion3DwbResult where
  | pyNone : Diffusion3DwbResult
  | profilesResult (wb_positions : List (List ℝ)) (wb_profiles : List (List ℝ)) :
      Diffusion3DwbResult
  | residuals (res : List ℝ) : Diffusion3DwbResult
  | crash : Diffusion3DwbResult

/-- `diffusion3Dwb_params` (diffusion.py lines 473-584).  The plotting block
(`show_plot`) draws figures only and is not modelled.  The `v.mean(axis=k)`
planes become explicit `Finset` averages; the chained `if/elif/else` raypath
selection becomes a guarded disjunction with the same value in each case.
Ray-path letters are read with `getD` (an out-of-range read is an
IndexError in the source, not exercised here). -/
def diffusion3Dwb_params (params : Params3D)
    (data_x_microns data_y_unit_areas : Option (List (List ℝ)))
    (raypaths : Option (List String)) (erf_or_sum : String)
    (infinity points : ℕ) : List String × Diffusion3DwbResult :=
  match raypaths with
  | none => (["raypaths must be in the form of a list of three abc directions"],
      Diffusion3DwbResult.pyNone)
  | some rp =>
    match diffusion3Dnpi_params params none none erf_or_sum true infinity points with
    | (npiLog, Diffusion3DnpiResult.success v _ _) =>
      let fitting : Bool :=
        match data_x_microns, data_y_unit_areas with
        | some dx, some dy => dx.map List.length == dy.map List.length
        | _, _ => false
      let fitMsgs : List String :=
        match data_x_microns, data_y_unit_areas with
        | some dx, some dy =>
            if dx.map List.length == dy.map List.length then ["fitting to data"]
            else ["x and y data must be the same shape",
                  "x " ++ toString (dx.map List.length),
                  "y " ++ toString (dy.map List.length)]
        | _, _ => []
      let raypathA : ℕ → ℕ → ℝ := fun e f => (∑ d ∈ Finset.range points, v d e f) / points
      let raypathB : ℕ → ℕ → ℝ := fun d f => (∑ e ∈ Finset.range points, v d e f) / points
      let raypathC : ℕ → ℕ → ℝ := fun d e => (∑ f ∈ Finset.range points, v d e f) / points
      let mid := points / 2
      if rp.getD 0 "" = "b" ∨ rp.getD 0 "" = "c" then
        let wbA := if rp.getD 0 "" = "b" then (List.range points).map fun d => raypathB d mid
          else (List.range points).map fun d => raypathC d mid
        if rp.getD 1 "" = "a" ∨ rp.getD 1 "" = "c" then
          let wbB := if rp.getD 1 "" = "a" then (List.range points).map fun e => raypathA e mid
            else (List.range points).map fun e => raypathC mid e
          if rp.getD 2 "" = "a" ∨ rp.getD 2 "" = "b" then
            let wbC := if rp.getD 2 "" = "a" then (List.range points).map fun f => raypathA mid f
              else (List.range points).map fun f => raypathB mid f
            let L3 := params.microns3
            let wb_profiles := [wbA, wbB, wbC]
            let wb_positions := wbPositions L3 points
            if fitting then
              let residuals := ((List.range 3).map fun k =>
                (List.range ((data_x_microns.getD []).getD k []).length).map fun pos =>
                  let microns := ((data_x_microns.getD []).getD k []).getD pos 0
                  let idx := np_argmin ((wb_positions.getD k []).map fun p => |p - microns|)
                  (wb_profiles.getD k []).getD idx 0 -
                    ((data_y_unit_areas.getD []).getD k []).getD pos 0).flatten
              (npiLog ++ fitMsgs, Diffusion3DwbResult.residuals residuals)
            else (npiLog ++ fitMsgs,
              Diffusion3DwbResult.profilesResult wb_positions wb_profiles)
          else (npiLog ++ fitMsgs ++
            ["raypaths[2] for profile || c must be \"a\" or \"b\""],
            Diffusion3DwbResult.pyNone)
        else (npiLog ++ fitMsgs ++
          ["raypaths[1] for profile || b must be \"a\" or \"c\""],
          Diffusion3DwbResult.pyNone)
      else (npiLog ++ fitMsgs ++
        ["raypaths[0] for profile || a must be \"b\" or \"c\""],
        Diffusion3DwbResult.pyNone)
    | (npiLog, _) => (npiLog, Diffusion3DwbResult.crash)

/-- `diffusion3Dwb` (diffusion.py lines 586-605): builds the parameter set
with `params_setup3D` (never forwarding `isotropic`) and returns it at once;
everything after the first `return` in the source is unreachable. -/
def diffusion3Dwb (lengths_microns log10Ds_m2s : List ℝ) (time_seconds : ℝ)
    (raypaths : List String) (initial final : ℝ) (points : ℕ)
    (isotropic : Bool) : Params3D :=
  params_setup3D lengths_microns log10Ds_m2s time_seconds initial final
    false false [true, true, true] false false

/-- The dimensionless unit profile computed by `diffusion1D_params` before
inversion and rescaling: the truncated Fourier cosine series for
`erf_or_sum = "infsum"`, the complementary-error-function closed form
otherwise. -/
def unitModel1D (erf_or_sum : String) (P : Params1D) (infinity : ℕ) (xm : ℝ) : ℝ :=
  let L_meters := P.microns.value / 1e6
  let t := P.time_seconds.value
  let D := (10 : ℝ) ^ P.log10D_m2s.value
  let a_meters := L_meters / 2
  let twoA := L_meters
  if erf_or_sum = "infsum" then
    (∑ n ∈ Finset.range infinity,
      ((-1 : ℝ)) ^ n / (2 * (n : ℝ) + 1) *
        Real.exp (-D * (2 * (n : ℝ) + 1) ^ 2 * Real.pi ^ 2 * t / twoA ^ 2) *
        Real.cos ((2 * (n : ℝ) + 1) * Real.pi * xm / twoA)) * 4 / Real.pi
  else
    erf ((a_meters + xm) / (2 * (D * t) ^ (0.5 : ℝ))) +
      erf ((a_meters - xm) / (2 * (D * t) ^ (0.5 : ℝ))) - 1

/-- Project the model array out of a `diffusion1D_params` profile result
(empty list on any other outcome). -/
def profileModelOf : List String × Diffusion1DResult → List ℝ
  | (_, Diffusion1DResult.profile _ m) => m
  | _ => []

/-- Project the slice-profile list out of a `diffusion3Dnpi_params` success
result (empty list on any other outcome). -/
def npiSliceprofiles : List String × Diffusion3DnpiResult → List (List ℝ)
  | (_, Diffusion3DnpiResult.success _ sps _) => sps
  | _ => []

/-- `sys.float_info.epsilon = 2⁻⁵²`. -/
def float_info_epsilon : ℝ := 2 ^ (-52 : ℤ)

/-- `solve_Ea_D0` (arrhenius.py lines 26-61, duplicated in diffusion.py lines
650-685).  With fewer than 2 points it prints a warning and returns
`(None, None)`.  Otherwise the weighted degree-1 `np.polyfit` on the arrays
extended by an epsilon-weighted copy of the last point is modelled by its
weighted normal equations (numpy scales each row by its weight, so the
squared weights enter the sums); the covariance-derived `ufloat` standard
errors are presentation data and are not modelled, only the nominal
`(Ea, D0)` values are returned. -/
def solve_Ea_D0 (log10D_list celsius_list : List ℝ) :
    List String × Option (ℝ × ℝ) :=
  let T := celsius_list.map (fun c => c + 273.15)
  let x := T.map (fun Tv => 1e4 / Tv)
  let y := log10D_list
  if x.length < 2 ∨ y.length < 2 then
    (["Warning: fitting to only one point"], none)
  else
    let x_extra := x ++ x.drop (x.length - 1)
    let y_extra := y ++ y.drop (y.length - 1)
    let weights := List.replicate x.length (1 : ℝ) ++ [float_info_epsilon]
    let u := weights.map (fun w => w ^ 2)
    let S := u.sum
    let Sx := (List.zipWith (fun a b => a * b) u x_extra).sum
    let Sy := (List.zipWith (fun a b => a * b) u y_extra).sum
    let Sxx := (List.zipWith (fun a b => a * b) u (x_extra.map (fun v => v ^ 2))).sum
    let Sxy := (List.zipWith (fun a b => a * b) u
      (List.zipWith (fun a b => a * b) x_extra y_extra)).sum
    let denom := S * Sxx - Sx ^ 2
    let slope := (S * Sxy - Sx * Sy) / denom
    let intercept := (Sxx * Sy - Sx * Sxy) / denom
    let Ea := -slope * 2.303 * GAS_CONSTANT * 1e4
    let D0 := (10 : ℝ) ^ intercept
    ([], some (Ea, D0))

/-! ### Generic list lemmas -/

theorem getD_range_map (f : ℕ → ℝ) (n i : ℕ) (h : i < n) :
    ((List.range n).map f).getD i 0 = f i := by
  rw [List.getD_eq_getElem?_getD, List.getElem?_map, List.getElem?_range h]
  rfl

theorem linspaceList_getD (lo hi : ℝ) (n i : ℕ) (h : i < n) :
    (linspaceList lo hi n).getD i 0 = linspace lo hi n i :=
  getD_range_map _ n i h

/-! ### The 1D model with no observations -/

/-- Characterisation of `diffusion1D_params` on the no-data path with a valid
method keyword and non-negative time: the printed log is empty and the result
is the `(x_microns, model)` profile, where the model applies the direction
logic and rescaling to the dimensionless `unitModel1D` profile. -/
theorem diffusion1D_params_nodata (P : Params1D) (m : String) (center : Bool)
    (inf pts : ℕ) (ht : 0 ≤ P.time_seconds.value)
    (hm : m = "erf" ∨ m = "infsum") :
    diffusion1D_params P none none m center inf pts =
      ([], Diffusion1DResult.profile
        ((linspaceList (-(P.microns.value / 1e6 / 2)) (P.microns.value / 1e6 / 2)
            pts).map (fun v => v * 1e6))
        ((linspaceList (-(P.microns.value / 1e6 / 2)) (P.microns.value / 1e6 / 2)
            pts).map (fun xm =>
          (if P.initial_unit_value.value > P.final_unit_value.value then
              unitModel1D m P inf xm
            else 1 - unitModel1D m P inf xm) *
            ((if P.initial_unit_value.value > P.final_unit_value.value then
                P.initial_unit_value.value
              else P.final_unit_value.value) -
              (if P.initial_unit_value.value > P.final_unit_value.value then
                P.final_unit_value.value
              else P.initial_unit_value.value)) +
            (if P.initial_unit_value.value > P.final_unit_value.value then
              P.final_unit_value.value
            else P.initial_unit_value.value)))) := by
  have ht' : ¬ P.time_seconds.value < 0 := not_lt.mpr ht
  by_cases hgo : P.initial_unit_value.value > P.final_unit_value.value
  · rcases hm with hm | hm <;> subst hm <;>
      simp [diffusion1D_params, ht', hgo, unitModel1D, List.map_map, Function.comp]
  · rcases hm with hm | hm <;> subst hm <;>
      simp [diffusion1D_params, ht', hgo, unitModel1D, List.map_map, Function.comp]

/-- Claim C1: for every parameter set with `initial_value > final_value` and
non-negative time, `diffusion1D_params` with method `'erf'` and no observed
data returns, at each generated position `x` (in meters, reported in
microns), the model value
`(erf ((a+x)/(2√(Dt))) + erf ((a−x)/(2√(Dt))) − 1) · (initial − final) + final`
with `a = length/2` in meters and `D = 10^log10D`. -/
theorem claim_C1 (microns log10D t init fin : ℝ) (vD vinit vfin center : Bool)
    (inf pts : ℕ) (hif : init > fin) (ht : 0 ≤ t) :
    diffusion1D_params (params_setup1D microns log10D t init fin vD vinit vfin)
      none none "erf" center inf pts =
      ([], Diffusion1DResult.profile
        ((linspaceList (-(microns / 1e6 / 2)) (microns / 1e6 / 2) pts).map
          (fun v => v * 1e6))
        ((linspaceList (-(microns / 1e6 / 2)) (microns / 1e6 / 2) pts).map
          (fun x =>
            (erf ((microns / 1e6 / 2 + x) /
                (2 * Real.sqrt ((10 : ℝ) ^ log10D * t))) +
              erf ((microns / 1e6 / 2 - x) /
                (2 * Real.sqrt ((10 : ℝ) ^ log10D * t))) - 1) *
              (init - fin) + fin))) := by
  have h := diffusion1D_params_nodata
    (params_setup1D microns log10D t init fin vD vinit vfin) "erf" center inf pts
    (by simpa [params_setup1D] using ht) (Or.inl rfl)
  rw [h]
  simp [params_setup1D, unitModel1D, hif, Real.sqrt_eq_rpow,
    show (0.5 : ℝ) = 1 / 2 by norm_num]

/-- Witness for C1 at a concrete going-out parameter set. -/
theorem claim_C1_witness :
    diffusion1D_params (params_setup1D 100 (-13) 3600 1 0 true false false)
      none none "erf" true 100 5 =
      ([], Diffusion1DResult.profile
        ((linspaceList (-(100 / 1e6 / 2)) (100 / 1e6 / 2) 5).map
          (fun v => v * 1e6))
        ((linspaceList (-(100 / 1e6 / 2)) (100 / 1e6 / 2) 5).map
          (fun x =>
            (erf ((100 / 1e6 / 2 + x) /
                (2 * Real.sqrt ((10 : ℝ) ^ (-13 : ℝ) * 3600))) +
              erf ((100 / 1e6 / 2 - x) /
                (2 * Real.sqrt ((10 : ℝ) ^ (-13 : ℝ) * 3600))) - 1) *
              (1 - 0) + 0))) :=
  claim_C1 100 (-13) 3600 1 0 true false false true 100 5 (by norm_num)
    (by norm_num)

/-- Claim C6: with matching positions and identical length, diffusivity and
time, the profile computed with `(initial, final) = (1, 0)` and the one
computed with `(initial, final) = (0, 1)` sum to 1 pointwise. -/
theorem claim_C6 (microns log10D t : ℝ) (vD vinit vfin center : Bool)
    (inf pts : ℕ) (m : String) (ht : 0 ≤ t) (hm : m = "erf" ∨ m = "infsum") :
    ∃ xs y1 y2 : List ℝ,
      diffusion1D_params (params_setup1D microns log10D t 1 0 vD vinit vfin)
        none none m center inf pts = ([], Diffusion1DResult.profile xs y1) ∧
      diffusion1D_params (params_setup1D microns log10D t 0 1 vD vinit vfin)
        none none m center inf pts = ([], Diffusion1DResult.profile xs y2) ∧
      y1.length = pts ∧ y2.length = pts ∧
      ∀ i : ℕ, i < pts → y1.getD i 0 + y2.getD i 0 = 1 := by
  have h1 := diffusion1D_params_nodata
    (params_setup1D microns log10D t 1 0 vD vinit vfin) m center inf pts
    (by simpa [params_setup1D] using ht) hm
  have h2 := diffusion1D_params_nodata
    (params_setup1D microns log10D t 0 1 vD vinit vfin) m center inf pts
    (by simpa [params_setup1D] using ht) hm
  have hgt : ((1 : ℝ) > 0) := one_pos
  have hngt : ¬ ((0 : ℝ) > 1) := not_lt.mpr zero_le_one
  simp only [params_setup1D] at h1 h2
  refine ⟨_, _, _, h1, h2, by simp [linspaceList], by simp [linspaceList], ?_⟩
  intro i hi
  have hu : unitModel1D m (params_setup1D microns log10D t 0 1 vD vinit vfin) inf =
      unitModel1D m (params_setup1D microns log10D t 1 0 vD vinit vfin) inf := rfl
  simp only [params_setup1D] at hu
  simp only [hgt, hngt, if_true, if_false, linspaceList, List.map_map, hu,
    if_pos, if_neg]
  rw [getD_range_map _ _ _ hi, getD_range_map _ _ _ hi]
  simp [Function.comp]

/-- Witness for C6 at a concrete parameter set. -/
theorem claim_C6_witness :
    ∃ xs y1 y2 : List ℝ,
      diffusion1D_params (params_setup1D 100 (-13) 3600 1 0 true false false)
        none none "erf" true 100 5 = ([], Diffusion1DResult.profile xs y1) ∧
      diffusion1D_params (params_setup1D 100 (-13) 3600 0 1 true false false)
        none none "erf" true 100 5 = ([], Diffusion1DResult.profile xs y2) ∧
      y1.length = 5 ∧ y2.length = 5 ∧
      ∀ i : ℕ, i < 5 → y1.getD i 0 + y2.getD i 0 = 1 :=
  claim_C6 100 (-13) 3600 true false false true 100 5 "erf" (by norm_num)
    (Or.inl rfl)

/-- Characterisation of `diffusion1D_params` in fitting mode (both data
arrays supplied, equal lengths, valid method, non-negative time): the result
is the elementwise residual `model - data_y`, the model being evaluated at
the data positions (converted to meters and optionally centered). -/
theorem diffusion1D_params_fit (P : Params1D) (dx dy : List ℝ) (m : String)
    (center : Bool) (inf pts : ℕ) (ht : 0 ≤ P.time_seconds.value)
    (hm : m = "erf" ∨ m = "infsum") (hlen : dx.length = dy.length) :
    diffusion1D_params P (some dx) (some dy) m center inf pts =
      ([], Diffusion1DResult.residual
        (List.zipWith (fun mo d => mo - d)
          ((if center then
              (dx.map (fun v => v / 1e6)).map
                (fun v => v - P.microns.value / 1e6 / 2)
            else dx.map (fun v => v / 1e6)).map
            (fun xm =>
              (if P.initial_unit_value.value > P.final_unit_value.value then
                  unitModel1D m P inf xm
                else 1 - unitModel1D m P inf xm) *
                ((if P.initial_unit_value.value > P.final_unit_value.value then
                    P.initial_unit_value.value
                  else P.final_unit_value.value) -
                  (if P.initial_unit_value.value > P.final_unit_value.value then
                    P.final_unit_value.value
                  else P.initial_unit_value.value)) +
                (if P.initial_unit_value.value > P.final_unit_value.value then
                  P.final_unit_value.value
                else P.initial_unit_value.value)))
          dy)) := by
  have ht' : ¬ P.time_seconds.value < 0 := not_lt.mpr ht
  by_cases hgo : P.initial_unit_value.value > P.final_unit_value.value <;>
    by_cases hc : center <;>
    rcases hm with hm | hm <;> subst hm <;>
    simp [diffusion1D_params, ht', hgo, hc, hlen, unitModel1D, List.map_map,
      Function.comp_def]

/-- Characterisation of `diffusion1D_params` when both data arrays are
supplied with mismatched lengths and time is non-negative: the mismatch is
reported (with both lengths) and the computation falls through to the
no-data path, returning whatever the same call without data would return. -/
theorem diffusion1D_params_mismatch (P : Params1D) (dx dy : List ℝ)
    (m : String) (center : Bool) (inf pts : ℕ)
    (ht : 0 ≤ P.time_seconds.value) (hlen : dx.length ≠ dy.length) :
    diffusion1D_params P (some dx) (some dy) m center inf pts =
      (["x and y data must be the same length",
        "x " ++ toString dx.length, "y " ++ toString dy.length] ++
          (diffusion1D_params P none none m center inf pts).1,
        (diffusion1D_params P none none m center inf pts).2) := by
  have ht' : ¬ P.time_seconds.value < 0 := not_lt.mpr ht
  have hlen' : (dx.length == dy.length) = false := by
    simpa using hlen
  by_cases h1 : m = "infsum" <;> by_cases h2 : m = "erf" <;>
    simp [diffusion1D_params, ht', hlen', h1, h2]

/-- Claim C4 (amended): with both observed arrays supplied and non-negative
time, equal lengths give the elementwise residual vector `model − observed`;
mismatched lengths are reported with both lengths, after which the call
falls back to the no-data path and returns the generated `(positions,
model)` profile rather than aborting. -/
theorem claim_C4 (P : Params1D) (dx dy : List ℝ) (center : Bool)
    (inf pts : ℕ) (ht : 0 ≤ P.time_seconds.value) :
    (dx.length = dy.length →
      diffusion1D_params P (some dx) (some dy) "erf" center inf pts =
        ([], Diffusion1DResult.residual
          (List.zipWith (fun mo d => mo - d)
            ((if center then
                (dx.map (fun v => v / 1e6)).map
                  (fun v => v - P.microns.value / 1e6 / 2)
              else dx.map (fun v => v / 1e6)).map
              (fun xm =>
                (if P.initial_unit_value.value > P.final_unit_value.value then
                    unitModel1D "erf" P inf xm
                  else 1 - unitModel1D "erf" P inf xm) *
                  ((if P.initial_unit_value.value > P.final_unit_value.value then
                      P.initial_unit_value.value
                    else P.final_unit_value.value) -
                    (if P.initial_unit_value.value > P.final_unit_value.value then
                      P.final_unit_value.value
                    else P.initial_unit_value.value)) +
                  (if P.initial_unit_value.value > P.final_unit_value.value then
                    P.final_unit_value.value
                  else P.initial_unit_value.value)))
            dy))) ∧
    (dx.length ≠ dy.length →
      diffusion1D_params P (some dx) (some dy) "erf" center inf pts =
        (["x and y data must be the same length",
          "x " ++ toString dx.length, "y " ++ toString dy.length],
          (diffusion1D_params P none none "erf" center inf pts).2) ∧
      ∃ X M : List ℝ,
        (diffusion1D_params P none none "erf" center inf pts).2 =
          Diffusion1DResult.profile X M) := by
  constructor
  · intro hlen
    exact diffusion1D_params_fit P dx dy "erf" center inf pts ht (Or.inl rfl) hlen
  · intro hlen
    have hmm := diffusion1D_params_mismatch P dx dy "erf" center inf pts ht hlen
    have hnd := diffusion1D_params_nodata P "erf" center inf pts ht (Or.inl rfl)
    constructor
    · rw [hmm, hnd]
      simp
    · exact ⟨_, _, by rw [hnd]⟩

/-- Witness for C4 at concrete inputs (the equal-length conjunct). -/
theorem claim_C4_witness :
    diffusion1D_params (params_setup1D 100 (-13) 3600 1 0 true false false)
      (some [50]) (some [0.5]) "erf" true 100 50 =
      ([], Diffusion1DResult.residual
        (List.zipWith (fun mo d => mo - d)
          ((if true then
              (([50] : List ℝ).map (fun v => v / 1e6)).map
                (fun v => v -
                  (params_setup1D 100 (-13) 3600 1 0 true false
                    false).microns.value / 1e6 / 2)
            else ([50] : List ℝ).map (fun v => v / 1e6)).map
            (fun xm =>
              (if (params_setup1D 100 (-13) 3600 1 0 true false
                    false).initial_unit_value.value >
                  (params_setup1D 100 (-13) 3600 1 0 true false
                    false).final_unit_value.value then
                  unitModel1D "erf"
                    (params_setup1D 100 (-13) 3600 1 0 true false false) 100 xm
                else 1 - unitModel1D "erf"
                    (params_setup1D 100 (-13) 3600 1 0 true false false) 100 xm) *
                ((if (params_setup1D 100 (-13) 3600 1 0 true false
                      false).initial_unit_value.value >
                    (params_setup1D 100 (-13) 3600 1 0 true false
                      false).final_unit_value.value then
                    (params_setup1D 100 (-13) 3600 1 0 true false
                      false).initial_unit_value.value
                  else (params_setup1D 100 (-13) 3600 1 0 true false
                      false).final_unit_value.value) -
                  (if (params_setup1D 100 (-13) 3600 1 0 true false
                      false).initial_unit_value.value >
                    (params_setup1D 100 (-13) 3600 1 0 true false
                      false).final_unit_value.value then
                    (params_setup1D 100 (-13) 3600 1 0 true false
                      false).final_unit_value.value
                  else (params_setup1D 100 (-13) 3600 1 0 true false
                      false).initial_unit_value.value)) +
                (if (params_setup1D 100 (-13) 3600 1 0 true false
                    false).initial_unit_value.value >
                  (params_setup1D 100 (-13) 3600 1 0 true false
                    false).final_unit_value.value then
                  (params_setup1D 100 (-13) 3600 1 0 true false
                    false).final_unit_value.value
                else (params_setup1D 100 (-13) 3600 1 0 true false
                    false).initial_unit_value.value)))
          [0.5])) :=
  (claim_C4 (params_setup1D 100 (-13) 3600 1 0 true false false)
    [50] [0.5] true 100 50 (by simp [params_setup1D])).1 rfl

/-- Counterexample to C4 as stated: at a concrete mismatched call the
function does not abort; it prints the mismatch and returns the full
no-data profile. -/
theorem claim_C4_counterexample :
    (diffusion1D_params (params_setup1D 100 (-13) 3600 1 0 true false false)
        (some [50]) (some []) "erf" true 100 50).2 =
      (diffusion1D_params (params_setup1D 100 (-13) 3600 1 0 true false false)
        none none "erf" true 100 50).2 ∧
    (diffusion1D_params (params_setup1D 100 (-13) 3600 1 0 true false false)
        (some [50]) (some []) "erf" true 100 50).2 ≠
      Diffusion1DResult.pyNone ∧
    (diffusion1D_params (params_setup1D 100 (-13) 3600 1 0 true false false)
        (some [50]) (some []) "erf" true 100 50).2 ≠
      Diffusion1DResult.pyFalse ∧
    (diffusion1D_params (params_setup1D 100 (-13) 3600 1 0 true false false)
        (some [50]) (some []) "erf" true 100 50).1 =
      ["x and y data must be the same length", "x 1", "y 0"] := by
  have ht : (0 : ℝ) ≤
      (params_setup1D 100 (-13) 3600 1 0 true false false).time_seconds.value := by
    simp [params_setup1D]
  have hmm := diffusion1D_params_mismatch
    (params_setup1D 100 (-13) 3600 1 0 true false false) [50] [] "erf" true
    100 50 ht (by simp)
  have hnd := diffusion1D_params_nodata
    (params_setup1D 100 (-13) 3600 1 0 true false false) "erf" true 100 50 ht
    (Or.inl rfl)
  refine ⟨by rw [hmm], ?_, ?_, ?_⟩
  · rw [hmm, hnd]
    simp
  · rw [hmm, hnd]
    simp
  · rw [hmm, hnd]
    simp
    exact ⟨rfl, rfl⟩

/-- Claim C9: with fewer than 2 (temperature, log10D) pairs, `solve_Ea_D0`
prints a warning and returns `(None, None)` — no activation energy and no
pre-exponential factor, not a crash or a fabricated regression line. -/
theorem claim_C9 (log10D_list celsius_list : List ℝ)
    (h : celsius_list.length < 2 ∨ log10D_list.length < 2) :
    solve_Ea_D0 log10D_list celsius_list =
      (["Warning: fitting to only one point"], none) := by
  have hx : ((celsius_list.map (fun c => c + 273.15)).map
      (fun Tv => 1e4 / Tv)).length < 2 ∨ log10D_list.length < 2 := by
    simpa using h
  simp only [solve_Ea_D0]
  rw [if_pos hx]

/-- Witness for C9 with a single data pair. -/
theorem claim_C9_witness :
    solve_Ea_D0 [-13] [800] = (["Warning: fitting to only one point"], none) :=
  claim_C9 [-13] [800] (Or.inl (by simp))

/-- Claim C10: the wrapper `diffusion3Dwb` returns the parameter set built
by `params_setup3D` immediately (with the default linkage flags and vary
flags, `isotropic` never being forwarded); the plotting/evaluation code
after its first `return` is unreachable, so it never returns whole-block
positions or profiles. -/
theorem claim_C10 (lengths_microns log10Ds_m2s : List ℝ) (time_seconds : ℝ)
    (raypaths : List String) (initial final : ℝ) (points : ℕ)
    (isotropic : Bool) :
    diffusion3Dwb lengths_microns log10Ds_m2s time_seconds raypaths initial
        final points isotropic =
      params_setup3D lengths_microns log10Ds_m2s time_seconds initial final
        false false [true, true, true] false false := rfl

/-- Claim C7 (amended): `params_setup3D` links the y- and z-diffusivities to
`log10Dx` when `isotropic` is set; when `slowb` is set and `isotropic` is
not, y is linked to `log10Dx - 1.` and z to `log10Dx` (with the linked
values resolving accordingly); when neither flag is set there is no linkage
and the three diffusivities carry their individual vary flags. -/
theorem claim_C7 (microns3 log10D3 : List ℝ) (t init fin : ℝ)
    (iso slowb b0 b1 b2 vinit vfin : Bool) :
    ((params_setup3D microns3 log10D3 t init fin iso slowb [b0, b1, b2]
        vinit vfin).log10Dx.vary = b0) ∧
    (iso = true →
      (params_setup3D microns3 log10D3 t init fin iso slowb [b0, b1, b2]
          vinit vfin).log10Dy.expr = some "log10Dx" ∧
      (params_setup3D microns3 log10D3 t init fin iso slowb [b0, b1, b2]
          vinit vfin).log10Dz.expr = some "log10Dx" ∧
      (params_setup3D microns3 log10D3 t init fin iso slowb [b0, b1, b2]
          vinit vfin).log10DyVal =
        (params_setup3D microns3 log10D3 t init fin iso slowb [b0, b1, b2]
          vinit vfin).log10Dx.value ∧
      (params_setup3D microns3 log10D3 t init fin iso slowb [b0, b1, b2]
          vinit vfin).log10DzVal =
        (params_setup3D microns3 log10D3 t init fin iso slowb [b0, b1, b2]
          vinit vfin).log10Dx.value) ∧
    (iso = false → slowb = true →
      (params_setup3D microns3 log10D3 t init fin iso slowb [b0, b1, b2]
          vinit vfin).log10Dy.expr = some "log10Dx - 1." ∧
      (params_setup3D microns3 log10D3 t init fin iso slowb [b0, b1, b2]
          vinit vfin).log10Dz.expr = some "log10Dx" ∧
      (params_setup3D microns3 log10D3 t init fin iso slowb [b0, b1, b2]
          vinit vfin).log10DyVal =
        (params_setup3D microns3 log10D3 t init fin iso slowb [b0, b1, b2]
          vinit vfin).log10Dx.value - 1 ∧
      (params_setup3D microns3 log10D3 t init fin iso slowb [b0, b1, b2]
          vinit vfin).log10DzVal =
        (params_setup3D microns3 log10D3 t init fin iso slowb [b0, b1, b2]
          vinit vfin).log10Dx.value) ∧
    (iso = false → slowb = false →
      (params_setup3D microns3 log10D3 t init fin iso slowb [b0, b1, b2]
          vinit vfin).log10Dy.expr = none ∧
      (params_setup3D microns3 log10D3 t init fin iso slowb [b0, b1, b2]
          vinit vfin).log10Dz.expr = none ∧
      (params_setup3D microns3 log10D3 t init fin iso slowb [b0, b1, b2]
          vinit vfin).log10Dy.vary = b1 ∧
      (params_setup3D microns3 log10D3 t init fin iso slowb [b0, b1, b2]
          vinit vfin).log10Dz.vary = b2) := by
  rcases iso with _ | _ <;> rcases slowb with _ | _ <;>
    simp [params_setup3D, Params3D.log10DyVal, Params3D.log10DzVal]

/-- Witness for C7: the isotropic conjunct at a concrete call. -/
theorem claim_C7_witness :
    (params_setup3D [1000, 1000, 1000] [-13, -13, -13] 3600 1 0 true false
        [true, true, true] false false).log10Dy.expr = some "log10Dx" :=
  ((claim_C7 [1000, 1000, 1000] [-13, -13, -13] 3600 1 0 true false true
    true true false false).2.1 rfl).1

/-- Counterexample to C7 as stated: when both `isotropic` and `slowb` are
set, `isotropic` wins, so the claim's slow-b clause fails — `log10Dy` is
linked to `log10Dx`, not to `log10Dx - 1.`. -/
theorem claim_C7_counterexample :
    (params_setup3D [1000, 1000, 1000] [-13, -13, -13] 3600 1 0 true true
        [true, true, true] false false).log10Dy.expr = some "log10Dx" ∧
    (params_setup3D [1000, 1000, 1000] [-13, -13, -13] 3600 1 0 true true
        [true, true, true] false false).log10Dy.expr ≠
      some "log10Dx - 1." := by
  constructor
  · simp [params_setup3D]
  · simp [params_setup3D]

/-! ### The thin-slab series -/

/-- Basel problem over the odd integers: `Σ 1/(2n+1)² = π²/8`. -/
theorem hasSum_inv_odd_sq :
    HasSum (fun n : ℕ => (1 : ℝ) / (2 * (n : ℝ) + 1) ^ 2) (Real.pi ^ 2 / 8) := by
  have h := hasSum_zeta_two
  have he : HasSum (fun k : ℕ => (1 : ℝ) / ((2 * k : ℕ) : ℝ) ^ 2)
      (1 / 4 * (Real.pi ^ 2 / 6)) := by
    have h4 := h.mul_left (1 / 4)
    have hfe : (fun k : ℕ => (1 : ℝ) / ((2 * k : ℕ) : ℝ) ^ 2) =
        fun k : ℕ => 1 / 4 * ((1 : ℝ) / (k : ℝ) ^ 2) := by
      funext k
      rcases Nat.eq_zero_or_pos k with hk | hk
      · subst hk
        simp
      · have hk' : ((k : ℝ)) ≠ 0 := Nat.cast_ne_zero.mpr hk.ne'
        push_cast
        field_simp
        ring
    rw [hfe]
    exact h4
  have hinj : Function.Injective (fun k : ℕ => 2 * k + 1) := by
    intro a b hab
    have hab' : 2 * a + 1 = 2 * b + 1 := hab
    omega
  have hsumm : Summable (fun k : ℕ => (1 : ℝ) / (((2 * k + 1 : ℕ)) : ℝ) ^ 2) := by
    have hc := h.summable.comp_injective hinj
    simp only [Function.comp_def] at hc
    simpa [one_div] using hc
  obtain ⟨b, hb⟩ := hsumm
  have hco : HasSum (fun n : ℕ => (1 : ℝ) / (n : ℝ) ^ 2)
      (1 / 4 * (Real.pi ^ 2 / 6) + b) := HasSum.even_add_odd he hb
  have hbval : b = Real.pi ^ 2 / 8 := by
    have hu := hco.unique h
    linarith
  subst hbval
  have hfe2 : (fun n : ℕ => (1 : ℝ) / (((2 * n + 1 : ℕ)) : ℝ) ^ 2) =
      fun n : ℕ => (1 : ℝ) / (2 * (n : ℝ) + 1) ^ 2 := by
    funext n
    push_cast
    ring_nf
  rw [hfe2] at hb
  exact hb

/-- The thin-slab series coefficients `8/((2n+1)²π²)` sum to exactly 1. -/
theorem hasSum_thinSlab_coeff :
    HasSum (fun n : ℕ => 8 * ((1 : ℝ) / ((2 * (n : ℝ) + 1) ^ 2 * Real.pi ^ 2)))
      1 := by
  have h := hasSum_inv_odd_sq.mul_left (8 / Real.pi ^ 2)
  have hfe : (fun n : ℕ => 8 / Real.pi ^ 2 * ((1 : ℝ) / (2 * (n : ℝ) + 1) ^ 2)) =
      fun n : ℕ => 8 * ((1 : ℝ) / ((2 * (n : ℝ) + 1) ^ 2 * Real.pi ^ 2)) := by
    funext n
    have h2 : (2 * (n : ℝ) + 1) ≠ 0 := by positivity
    have hπ : Real.pi ≠ 0 := Real.pi_ne_zero
    field_simp
    ring
  have hval : 8 / Real.pi ^ 2 * (Real.pi ^ 2 / 8) = 1 := by
    have hπ : Real.pi ≠ 0 := Real.pi_ne_zero
    field_simp
  rw [hfe, hval] at h
  exact h

/-- Every truncation of the thin-slab coefficient series is bounded by 1. -/
theorem sum_thinSlab_coeff_le_one (N : ℕ) :
    ∑ n ∈ Finset.range N,
      8 * ((1 : ℝ) / ((2 * (n : ℝ) + 1) ^ 2 * Real.pi ^ 2)) ≤ 1 :=
  sum_le_hasSum (Finset.range N) (fun i _ => by positivity) hasSum_thinSlab_coeff

/-- The thin-slab time axis is non-negative on valid indices. -/
theorem thinSlab_t_nonneg (mx : ℝ) (steps idx : ℕ) (hmx : 0 ≤ mx)
    (hidx : idx < steps) : 0 ≤ diffusionThinSlab_t_hours mx steps idx := by
  unfold diffusionThinSlab_t_hours linspace
  have h1 : (0 : ℝ) ≤ (steps : ℝ) - 1 := by
    have h2 : (1 : ℝ) ≤ (steps : ℝ) := by
      exact_mod_cast (by omega : 1 ≤ steps)
    linarith
  have h3 : (0 : ℝ) ≤ (idx : ℝ) := Nat.cast_nonneg idx
  rw [zero_add, sub_zero]
  positivity

/-- The thin-slab time axis is monotone on valid indices. -/
theorem thinSlab_t_mono (mx : ℝ) (steps i j : ℕ) (hmx : 0 ≤ mx) (hij : i ≤ j)
    (hj : j < steps) :
    diffusionThinSlab_t_hours mx steps i ≤ diffusionThinSlab_t_hours mx steps j := by
  unfold diffusionThinSlab_t_hours linspace
  have h1 : (0 : ℝ) ≤ (steps : ℝ) - 1 := by
    have h2 : (1 : ℝ) ≤ (steps : ℝ) := by
      exact_mod_cast (by omega : 1 ≤ steps)
    linarith
  rcases eq_or_lt_of_le h1 with h0 | h0
  · rw [← h0]
    simp
  · rw [zero_add, zero_add, sub_zero]
    rw [div_le_div_iff_of_pos_right h0]
    exact mul_le_mul_of_nonneg_left (by exact_mod_cast hij) hmx

/-- Claim C3 (amended): for every log10 diffusivity, thickness, non-negative
max time and truncation, the fractional array computed by
`diffusionThinSlab` is non-increasing in time and bounded in `[0, 1]`; its
value at `t = 0` tends to 1 as `series_terms → ∞`; and for positive
thickness the final value tends to 0 as `max_time_hours → ∞` (the series is
the fraction of the initial concentration remaining, not the uptake). -/
theorem claim_C3 (log10D th mx : ℝ) (N steps : ℕ) :
    (∀ i j : ℕ, i ≤ j → j < steps → 0 ≤ mx →
      diffusionThinSlab_cc log10D th mx N steps j ≤
        diffusionThinSlab_cc log10D th mx N steps i) ∧
    (∀ idx : ℕ, idx < steps → 0 ≤ mx →
      0 ≤ diffusionThinSlab_cc log10D th mx N steps idx ∧
        diffusionThinSlab_cc log10D th mx N steps idx ≤ 1) ∧
    Tendsto (fun M : ℕ => diffusionThinSlab_cc log10D th mx M steps 0)
      atTop (𝓝 1) ∧
    (0 < th → 2 ≤ steps →
      Tendsto (fun m : ℝ =>
          diffusionThinSlab_cc log10D th m N steps (steps - 1))
        atTop (𝓝 0)) := by
  have hD : (0 : ℝ) < (10 : ℝ) ^ log10D := Real.rpow_pos_of_pos (by norm_num) _
  refine ⟨?_, ?_, ?_, ?_⟩
  · intro i j hij hj hmx
    unfold diffusionThinSlab_cc
    apply Finset.sum_le_sum
    intro n _
    have hcoef : (0 : ℝ) ≤ 8 * (1 / ((2 * (n : ℝ) + 1) ^ 2 * Real.pi ^ 2)) := by
      positivity
    apply mul_le_mul_of_nonneg_left _ hcoef
    apply Real.exp_le_exp.mpr
    have hts : diffusionThinSlab_t_hours mx steps i * 3600 ≤
        diffusionThinSlab_t_hours mx steps j * 3600 := by
      have hm := thinSlab_t_mono mx steps i j hmx hij hj
      linarith
    have htop : (10 : ℝ) ^ log10D * (2 * (n : ℝ) + 1) ^ 2 * Real.pi ^ 2 *
        (diffusionThinSlab_t_hours mx steps i * 3600) ≤
        (10 : ℝ) ^ log10D * (2 * (n : ℝ) + 1) ^ 2 * Real.pi ^ 2 *
        (diffusionThinSlab_t_hours mx steps j * 3600) := by
      apply mul_le_mul_of_nonneg_left hts
      positivity
    have hbotnn : (0 : ℝ) ≤ 4 * (th / 2e6) ^ 2 := by positivity
    rcases eq_or_lt_of_le hbotnn with h0 | h0
    · rw [← h0]
      simp
    · rw [neg_div, neg_div]
      apply neg_le_neg
      rw [div_le_div_iff_of_pos_right h0]
      exact htop
  · intro idx hidx hmx
    have hts0 : 0 ≤ diffusionThinSlab_t_hours mx steps idx :=
      thinSlab_t_nonneg mx steps idx hmx hidx
    constructor
    · unfold diffusionThinSlab_cc
      apply Finset.sum_nonneg
      intro n _
      positivity
    · unfold diffusionThinSlab_cc
      calc
        ∑ n ∈ Finset.range N,
            8 * (1 / ((2 * (n : ℝ) + 1) ^ 2 * Real.pi ^ 2)) *
              Real.exp (-((10 : ℝ) ^ log10D * (2 * (n : ℝ) + 1) ^ 2 *
                Real.pi ^ 2 *
                (diffusionThinSlab_t_hours mx steps idx * 3600)) /
                  (4 * (th / 2e6) ^ 2)) ≤
            ∑ n ∈ Finset.range N,
              8 * ((1 : ℝ) / ((2 * (n : ℝ) + 1) ^ 2 * Real.pi ^ 2)) := by
          apply Finset.sum_le_sum
          intro n _
          have hcoef : (0 : ℝ) ≤
              8 * (1 / ((2 * (n : ℝ) + 1) ^ 2 * Real.pi ^ 2)) := by positivity
          have htopnn : (0 : ℝ) ≤
              (10 : ℝ) ^ log10D * (2 * (n : ℝ) + 1) ^ 2 * Real.pi ^ 2 *
                (diffusionThinSlab_t_hours mx steps idx * 3600) := by
            apply mul_nonneg (by positivity)
            apply mul_nonneg hts0
            norm_num
          have hexp : Real.exp
              (-((10 : ℝ) ^ log10D * (2 * (n : ℝ) + 1) ^ 2 * Real.pi ^ 2 *
                (diffusionThinSlab_t_hours mx steps idx * 3600)) /
                  (4 * (th / 2e6) ^ 2)) ≤ 1 := by
            apply Real.exp_le_one_iff.mpr
            rw [neg_div]
            apply neg_nonpos_of_nonneg
            exact div_nonneg htopnn (by positivity)
          calc
            8 * (1 / ((2 * (n : ℝ) + 1) ^ 2 * Real.pi ^ 2)) *
                Real.exp (-((10 : ℝ) ^ log10D * (2 * (n : ℝ) + 1) ^ 2 *
                  Real.pi ^ 2 *
                  (diffusionThinSlab_t_hours mx steps idx * 3600)) /
                    (4 * (th / 2e6) ^ 2)) ≤
                8 * (1 / ((2 * (n : ℝ) + 1) ^ 2 * Real.pi ^ 2)) * 1 :=
              mul_le_mul_of_nonneg_left hexp hcoef
            _ = 8 * ((1 : ℝ) / ((2 * (n : ℝ) + 1) ^ 2 * Real.pi ^ 2)) := by
              ring
        _ ≤ 1 := sum_thinSlab_coeff_le_one N
  · have hfe : (fun M : ℕ => diffusionThinSlab_cc log10D th mx M steps 0) =
        fun M : ℕ => ∑ n ∈ Finset.range M,
          8 * ((1 : ℝ) / ((2 * (n : ℝ) + 1) ^ 2 * Real.pi ^ 2)) := by
      funext M
      unfold diffusionThinSlab_cc diffusionThinSlab_t_hours linspace
      apply Finset.sum_congr rfl
      intro n _
      norm_num
    rw [hfe]
    exact hasSum_thinSlab_coeff.tendsto_sum_nat
  · intro hth hsteps
    have hts : ∀ m : ℝ, diffusionThinSlab_t_hours m steps (steps - 1) = m := by
      intro m
      unfold diffusionThinSlab_t_hours linspace
      have h1 : (1 : ℕ) ≤ steps := by omega
      have h2 : ((steps - 1 : ℕ) : ℝ) = (steps : ℝ) - 1 := by
        push_cast [Nat.cast_sub h1]
        ring
      rw [h2]
      have h3 : (steps : ℝ) - 1 ≠ 0 := by
        have h4 : (2 : ℝ) ≤ (steps : ℝ) := by exact_mod_cast hsteps
        linarith
      field_simp
    have hfe : (fun m : ℝ =>
        diffusionThinSlab_cc log10D th m N steps (steps - 1)) =
        fun m : ℝ => ∑ n ∈ Finset.range N,
          8 * ((1 : ℝ) / ((2 * (n : ℝ) + 1) ^ 2 * Real.pi ^ 2)) *
            Real.exp (-(((10 : ℝ) ^ log10D * (2 * (n : ℝ) + 1) ^ 2 *
              Real.pi ^ 2 * 3600 / (4 * (th / 2e6) ^ 2)) * m)) := by
      funext m
      unfold diffusionThinSlab_cc
      rw [hts m]
      apply Finset.sum_congr rfl
      intro n _
      have harg : -((10 : ℝ) ^ log10D * (2 * (n : ℝ) + 1) ^ 2 * Real.pi ^ 2 *
          (m * 3600)) / (4 * (th / 2e6) ^ 2) =
          -(((10 : ℝ) ^ log10D * (2 * (n : ℝ) + 1) ^ 2 * Real.pi ^ 2 * 3600 /
            (4 * (th / 2e6) ^ 2)) * m) := by
        ring
      rw [harg]
    rw [hfe]
    have hmain : Tendsto (fun m : ℝ => ∑ n ∈ Finset.range N,
        8 * ((1 : ℝ) / ((2 * (n : ℝ) + 1) ^ 2 * Real.pi ^ 2)) *
          Real.exp (-(((10 : ℝ) ^ log10D * (2 * (n : ℝ) + 1) ^ 2 *
            Real.pi ^ 2 * 3600 / (4 * (th / 2e6) ^ 2)) * m))) atTop
        (𝓝 (∑ _n ∈ Finset.range N, (0 : ℝ))) := by
      apply tendsto_finset_sum
      intro n _
      have hc : (0 : ℝ) < (10 : ℝ) ^ log10D * (2 * (n : ℝ) + 1) ^ 2 *
          Real.pi ^ 2 * 3600 / (4 * (th / 2e6) ^ 2) := by positivity
      have h1 : Tendsto (fun m : ℝ =>
          (10 : ℝ) ^ log10D * (2 * (n : ℝ) + 1) ^ 2 * Real.pi ^ 2 * 3600 /
            (4 * (th / 2e6) ^ 2) * m) atTop atTop :=
        Tendsto.const_mul_atTop hc tendsto_id
      have h2 : Tendsto (fun m : ℝ =>
          -((10 : ℝ) ^ log10D * (2 * (n : ℝ) + 1) ^ 2 * Real.pi ^ 2 * 3600 /
            (4 * (th / 2e6) ^ 2) * m)) atTop atBot := by
        simpa [Function.comp_def] using tendsto_neg_atTop_atBot.comp h1
      have h3 : Tendsto (fun m : ℝ =>
          Real.exp (-((10 : ℝ) ^ log10D * (2 * (n : ℝ) + 1) ^ 2 *
            Real.pi ^ 2 * 3600 / (4 * (th / 2e6) ^ 2) * m))) atTop (𝓝 0) := by
        simpa [Function.comp_def] using Real.tendsto_exp_atBot.comp h2
      have h4 := h3.const_mul
        (8 * ((1 : ℝ) / ((2 * (n : ℝ) + 1) ^ 2 * Real.pi ^ 2)))
      simpa using h4
    simpa using hmain

/-- Witness for C3: the monotone conjunct at a concrete input. -/
theorem claim_C3_witness :
    diffusionThinSlab_cc 0 2e6 1 1 2 1 ≤ diffusionThinSlab_cc 0 2e6 1 1 2 0 :=
  (claim_C3 0 2e6 1 1 2).1 0 1 (by norm_num) (by norm_num) (by norm_num)

/-- Counterexample to C3 as stated: the array is strictly decreasing, not
non-decreasing — at `log10D = 0`, thickness `2·10⁶` µm, one hour over two
timesteps and one series term, the value at the second timestep is strictly
below the value at `t = 0` (which is `8/π²`, not approximately 0). -/
theorem claim_C3_counterexample :
    diffusionThinSlab_cc 0 2e6 1 1 2 1 < diffusionThinSlab_cc 0 2e6 1 1 2 0 := by
  unfold diffusionThinSlab_cc diffusionThinSlab_t_hours linspace
  rw [Finset.sum_range_one, Finset.sum_range_one]
  apply mul_lt_mul_of_pos_left
  · apply Real.exp_lt_exp.mpr
    norm_num [Real.rpow_zero]
    have hπ : (0 : ℝ) < Real.pi ^ 2 * 3600 := by positivity
    linarith
  · positivity

/-! ### Bounds on the error function -/

theorem erf_zero : erf 0 = 0 := by
  simp [erf]

theorem continuous_gauss : Continuous fun t : ℝ => Real.exp (-t ^ 2) := by
  continuity

/-- `erf` is positive at positive arguments. -/
theorem erf_pos (x : ℝ) (hx : 0 < x) : 0 < erf x := by
  have hπ : 0 < Real.sqrt Real.pi := Real.sqrt_pos.mpr Real.pi_pos
  have hint : 0 < ∫ t in (0:ℝ)..x, Real.exp (-t ^ 2) := by
    apply intervalIntegral.intervalIntegral_pos_of_pos_on
    · exact (continuous_gauss).intervalIntegrable 0 x
    · intro u _
      exact Real.exp_pos _
    · exact hx
  exact mul_pos (by positivity) hint

/-- `erf` is strictly below 1 everywhere. -/
theorem erf_lt_one (x : ℝ) : erf x < 1 := by
  have hπ : 0 < Real.sqrt Real.pi := Real.sqrt_pos.mpr Real.pi_pos
  have hint : Integrable fun t : ℝ => Real.exp (-1 * t ^ 2) :=
    integrable_exp_neg_mul_sq one_pos
  have hgauss : ∫ t in Set.Ioi (0:ℝ), Real.exp (-t ^ 2) =
      Real.sqrt Real.pi / 2 := by
    have h := integral_gaussian_Ioi 1
    simpa using h
  rcases le_or_lt x 0 with hx | hx
  · have hle : (∫ t in (0:ℝ)..x, Real.exp (-t ^ 2)) ≤ 0 := by
      rw [intervalIntegral.integral_symm]
      apply neg_nonpos_of_nonneg
      apply intervalIntegral.integral_nonneg hx
      intro u _
      exact (Real.exp_pos _).le
    calc erf x ≤ 0 := by
          unfold erf
          apply mul_nonpos_of_nonneg_of_nonpos (by positivity) hle
      _ < 1 := one_pos
  · have hsplit : (∫ t in Set.Ioc (0:ℝ) x, Real.exp (-t ^ 2)) +
        (∫ t in Set.Ioi x, Real.exp (-t ^ 2)) =
        ∫ t in Set.Ioi (0:ℝ), Real.exp (-t ^ 2) := by
      rw [← MeasureTheory.setIntegral_union]
      · rw [Set.Ioc_union_Ioi_eq_Ioi hx.le]
      · exact Set.Ioc_disjoint_Ioi le_rfl
      · exact measurableSet_Ioi
      · apply (hint.integrableOn).congr_fun _ measurableSet_Ioc
        intro u _
        norm_num
      · apply (hint.integrableOn).congr_fun _ measurableSet_Ioi
        intro u _
        norm_num
    have htail : 0 < ∫ t in Set.Ioi x, Real.exp (-t ^ 2) := by
      rw [MeasureTheory.setIntegral_pos_iff_support_of_nonneg_ae]
      · have hsup : (Function.support fun t : ℝ => Real.exp (-t ^ 2)) =
            Set.univ := by
          ext u
          simp [Function.support, (Real.exp_pos _).ne']
        rw [hsup]
        simp
      · filter_upwards with u
        exact (Real.exp_pos _).le
      · apply (hint.integrableOn).congr_fun _ measurableSet_Ioi
        intro u _
        norm_num
    have hlt : (∫ t in (0:ℝ)..x, Real.exp (-t ^ 2)) <
        Real.sqrt Real.pi / 2 := by
      rw [intervalIntegral.integral_of_le hx.le]
      rw [← hgauss, ← hsplit]
      linarith
    have h2 : 2 / Real.sqrt Real.pi * (∫ t in (0:ℝ)..x, Real.exp (-t ^ 2)) <
        2 / Real.sqrt Real.pi * (Real.sqrt Real.pi / 2) :=
      mul_lt_mul_of_pos_left hlt (by positivity)
    have h3 : 2 / Real.sqrt Real.pi * (Real.sqrt Real.pi / 2) = 1 := by
      field_simp
    unfold erf
    rw [← h3]
    exact h2

/-! ### The 3D non-path-integrated model with equal axes -/

theorem getD_default_irrel (l : List ℝ) (i : ℕ) (h : i < l.length) (d d' : ℝ) :
    l.getD i d = l.getD i d' := by
  rw [List.getD_eq_getElem?_getD, List.getD_eq_getElem?_getD,
    List.getElem?_eq_getElem h]
  rfl

/-- With equal lengths and equal diffusivities on the three axes, shared
time, `initial = 1`, `final = 0` and no linkage, the three centerline slices
of `diffusion3Dnpi_params` are all equal to the standalone 1D profile
multiplied by the square of that profile's value at the middle index
`points / 2`. -/
theorem diffusion3Dnpi_slices_iso (L dl t : ℝ)
    (b0 b1 b2 vinit vfin vD1 vi1 vf1 : Bool) (m : String) (centered : Bool)
    (inf inf1 pts : ℕ) (ht : 0 ≤ t) :
    ∃ X Y : List ℝ,
      diffusion1D_params (params_setup1D L dl t 1 0 vD1 vi1 vf1)
        none none "erf" true inf1 pts = ([], Diffusion1DResult.profile X Y) ∧
      npiSliceprofiles (diffusion3Dnpi_params
        (params_setup3D [L, L, L] [dl, dl, dl] t 1 0 false false
          [b0, b1, b2] vinit vfin) none none m centered inf pts) =
        [(List.range pts).map (fun i => Y.getD i 0 * (Y.getD (pts / 2) 0) ^ 2),
         (List.range pts).map (fun i => Y.getD i 0 * (Y.getD (pts / 2) 0) ^ 2),
         (List.range pts).map
           (fun i => Y.getD i 0 * (Y.getD (pts / 2) 0) ^ 2)] := by
  have h10 : (0 : ℝ) < 1 := one_pos
  have hA : ¬ ((1 : ℝ) > 1) := lt_irrefl 1
  have hB : ¬ ((1 : ℝ) < 0) := not_lt.mpr zero_le_one
  have h1 : diffusion1D_params (params_setup1D L dl t 1 0 vD1 vi1 vf1)
      none none "erf" true inf1 pts =
      ([], Diffusion1DResult.profile
        ((linspaceList (-(L / 1e6 / 2)) (L / 1e6 / 2) pts).map
          (fun v => v * 1e6))
        ((linspaceList (-(L / 1e6 / 2)) (L / 1e6 / 2) pts).map
          (fun xm => unitModel1D "erf"
            (params_setup1D L dl t 1 0 vD1 vi1 vf1) inf1 xm))) := by
    rw [diffusion1D_params_nodata (params_setup1D L dl t 1 0 vD1 vi1 vf1)
      "erf" true inf1 pts (by simpa [params_setup1D] using ht) (Or.inl rfl)]
    simp [params_setup1D, h10]
  have e : ∀ b : Bool,
      diffusion1D_params (npiInnerParams L dl b t false 1 vinit 0 vfin)
        none none "erf" true 100 pts =
      ([], Diffusion1DResult.profile
        ((linspaceList (-(L / 1e6 / 2)) (L / 1e6 / 2) pts).map
          (fun v => v * 1e6))
        ((linspaceList (-(L / 1e6 / 2)) (L / 1e6 / 2) pts).map
          (fun xm => unitModel1D "erf"
            (params_setup1D L dl t 1 0 vD1 vi1 vf1) inf1 xm))) := by
    intro b
    rw [diffusion1D_params_nodata (npiInnerParams L dl b t false 1 vinit 0 vfin)
      "erf" true 100 pts (by simpa [npiInnerParams] using ht) (Or.inl rfl)]
    simp only [npiInnerParams]
    simp [h10]
    intro a _
    simp [unitModel1D, params_setup1D]
  refine ⟨_, _, h1, ?_⟩
  have hYlen : ((linspaceList (-(L / 1e6 / 2)) (L / 1e6 / 2) pts).map
      (fun xm => unitModel1D "erf"
        (params_setup1D L dl t 1 0 vD1 vi1 vf1) inf1 xm)).length = pts := by
    simp [linspaceList]
  simp only [diffusion3Dnpi_params, params_setup3D, Params3D.log10DyVal,
    Params3D.log10DzVal, List.getD_cons_zero, List.getD_cons_succ, hA, hB,
    Bool.false_eq_true, if_false, if_true, ite_false, ite_true]
  rw [e b0, e b1, e b2]
  dsimp only
  simp only [npiSliceprofiles, hA, hB, if_false, ite_false]
  refine List.ext_getElem (by simp) ?_
  intro i hi _
  have hi3 : i < 3 := by simpa using hi
  have hmid : ∀ j : ℕ, j < pts → pts / 2 < pts := by
    intro j hj
    exact Nat.div_lt_self (by omega) (by omega)
  interval_cases i <;>
    · simp only [List.getElem_cons_zero, List.getElem_cons_succ]
      apply List.map_congr_left
      intro j hj
      have hjlt : j < pts := List.mem_range.mp hj
      rw [getD_default_irrel _ j (by rw [hYlen]; exact hjlt) 1 0,
        getD_default_irrel _ (pts / 2) (by rw [hYlen]; exact hmid j hjlt) 1 0]
      ring

/-- Claim C5 (amended): with equal lengths and equal diffusivities on all
three axes (shared time, `initial = 1`, `final = 0`), the three centerline
slice profiles returned by `diffusion3Dnpi_params` are identical to each
other, and each equals the standalone 1D profile multiplied by the square of
that profile's value at the middle index `points / 2` (the slices are not
the bare 1D profile: the outer product contributes the two central factors). -/
theorem claim_C5 (L dl t : ℝ) (b0 b1 b2 vinit vfin vD1 vi1 vf1 : Bool)
    (m : String) (centered : Bool) (inf inf1 pts : ℕ) (ht : 0 ≤ t) :
    ∃ X Y : List ℝ,
      diffusion1D_params (params_setup1D L dl t 1 0 vD1 vi1 vf1)
        none none "erf" true inf1 pts = ([], Diffusion1DResult.profile X Y) ∧
      npiSliceprofiles (diffusion3Dnpi_params
        (params_setup3D [L, L, L] [dl, dl, dl] t 1 0 false false
          [b0, b1, b2] vinit vfin) none none m centered inf pts) =
        [(List.range pts).map (fun i => Y.getD i 0 * (Y.getD (pts / 2) 0) ^ 2),
         (List.range pts).map (fun i => Y.getD i 0 * (Y.getD (pts / 2) 0) ^ 2),
         (List.range pts).map
           (fun i => Y.getD i 0 * (Y.getD (pts / 2) 0) ^ 2)] :=
  diffusion3Dnpi_slices_iso L dl t b0 b1 b2 vinit vfin vD1 vi1 vf1 m centered
    inf inf1 pts ht

/-- Witness for C5 at a concrete isotropic parameter set. -/
theorem claim_C5_witness :
    ∃ X Y : List ℝ,
      diffusion1D_params (params_setup1D 2e6 0 1 1 0 true false false)
        none none "erf" true 100 3 = ([], Diffusion1DResult.profile X Y) ∧
      npiSliceprofiles (diffusion3Dnpi_params
        (params_setup3D [2e6, 2e6, 2e6] [0, 0, 0] 1 1 0 false false
          [true, true, true] false false) none none "erf" true 100 3) =
        [(List.range 3).map (fun i => Y.getD i 0 * (Y.getD (3 / 2) 0) ^ 2),
         (List.range 3).map (fun i => Y.getD i 0 * (Y.getD (3 / 2) 0) ^ 2),
         (List.range 3).map
           (fun i => Y.getD i 0 * (Y.getD (3 / 2) 0) ^ 2)] :=
  claim_C5 2e6 0 1 true true true false false true false false "erf" true
    100 100 3 (by norm_num)

/-- Counterexample to C5 as stated: at a concrete isotropic parameter set
(lengths `2·10⁶` µm so `a = 1` m, `log10D = 0`, `t = 1` s, 3 grid points)
the first entry of the first centerline slice differs from the first entry
of the standalone 1D profile: the slice carries the extra factor
`(2 erf(1/2) − 1)²` whose absolute value is strictly below 1. -/
theorem claim_C5_counterexample :
    ((npiSliceprofiles (diffusion3Dnpi_params
        (params_setup3D [2e6, 2e6, 2e6] [0, 0, 0] 1 1 0 false false
          [true, true, true] false false) none none "erf" true 100 3)).getD 0
        []).getD 0 0 ≠
      (profileModelOf (diffusion1D_params
        (params_setup1D 2e6 0 1 1 0 true false false)
        none none "erf" true 100 3)).getD 0 0 := by
  obtain ⟨X, Y, h1, h2⟩ := diffusion3Dnpi_slices_iso 2e6 0 1 true true true
    false false true false false "erf" true 100 100 3 (by norm_num)
  have hnd := diffusion1D_params_nodata
    (params_setup1D 2e6 0 1 1 0 true false false) "erf" true 100 3
    (by simp [params_setup1D]) (Or.inl rfl)
  rw [h1] at hnd
  have h3 := congrArg Prod.snd hnd
  simp only [Diffusion1DResult.profile.injEq] at h3
  have hYs : Y = (linspaceList (-(1 : ℝ)) 1 3).map
      (fun xm => unitModel1D "erf" (params_setup1D 2e6 0 1 1 0 true false
        false) 100 xm) := by
    rw [h3.2]
    norm_num [params_setup1D]
  have hu : ∀ xm : ℝ, unitModel1D "erf"
      (params_setup1D 2e6 0 1 1 0 true false false) 100 xm =
      erf ((1 + xm) / 2) + erf ((1 - xm) / 2) - 1 := by
    intro xm
    simp only [unitModel1D, params_setup1D]
    rw [if_neg (by decide : ¬ ("erf" : String) = "infsum")]
    norm_num [Real.rpow_zero, Real.one_rpow]
  have hY0 : Y.getD 0 0 = erf 1 - 1 := by
    rw [hYs]
    unfold linspaceList
    rw [List.map_map]
    rw [getD_range_map _ 3 0 (by norm_num)]
    simp only [Function.comp_def, hu, linspace]
    norm_num [erf_zero]
  have hY1 : Y.getD 1 0 = erf (1 / 2) + erf (1 / 2) - 1 := by
    rw [hYs]
    unfold linspaceList
    rw [List.map_map]
    rw [getD_range_map _ 3 1 (by norm_num)]
    simp only [Function.comp_def, hu, linspace]
    norm_num
  rw [h2, h1]
  simp only [profileModelOf, List.getD_cons_zero]
  rw [getD_range_map _ 3 0 (by norm_num)]
  rw [hY0, hY1]
  have hc : erf 1 - 1 < 0 := sub_neg.mpr (erf_lt_one 1)
  have hmlt : (erf (1 / 2) + erf (1 / 2) - 1) ^ 2 < 1 := by
    have hp0 := erf_pos (1 / 2) (by norm_num)
    have hp1 := erf_lt_one (1 / 2)
    nlinarith
  intro hEq
  have hgt : (erf 1 - 1) * 1 <
      (erf 1 - 1) * ((erf (1 / 2) + erf (1 / 2) - 1) ^ 2 / 1) := by
    nlinarith
  nlinarith

/-! ### The whole-block model -/

theorem diffusion3Dnpi_params_success (P : Params3D) (m : String)
    (centered : Bool) (inf pts : ℕ) (ht : 0 ≤ P.time_seconds.value) :
    ∃ (v : ℕ → ℕ → ℕ → ℝ) (sps spos : List (List ℝ)),
      diffusion3Dnpi_params P none none m centered inf pts =
        ([], Diffusion3DnpiResult.success v sps spos) := by
  simp only [diffusion3Dnpi_params, List.getD_cons_zero, List.getD_cons_succ]
  generalize (if (if P.initial_unit_value.value > 1 then 1
      else P.initial_unit_value.value) < P.final_unit_value.value then
      P.final_unit_value.value
    else if P.initial_unit_value.value > 1 then 1
      else P.initial_unit_value.value) = init2
  generalize (if (if P.initial_unit_value.value > 1 then 1
      else P.initial_unit_value.value) < P.final_unit_value.value then
      if P.initial_unit_value.value > 1 then 1 else P.initial_unit_value.value
    else P.final_unit_value.value) = fin2
  rw [diffusion1D_params_nodata (npiInnerParams (P.microns3.getD 0 0)
      P.log10Dx.value P.log10Dx.vary P.time_seconds.value P.time_seconds.vary
      init2 P.initial_unit_value.vary fin2 P.final_unit_value.vary)
      "erf" true 100 pts ht (Or.inl rfl),
    diffusion1D_params_nodata (npiInnerParams (P.microns3.getD 1 0)
      P.log10DyVal P.log10Dy.vary P.time_seconds.value P.time_seconds.vary
      init2 P.initial_unit_value.vary fin2 P.final_unit_value.vary)
      "erf" true 100 pts ht (Or.inl rfl),
    diffusion1D_params_nodata (npiInnerParams (P.microns3.getD 2 0)
      P.log10DzVal P.log10Dz.vary P.time_seconds.value P.time_seconds.vary
      init2 P.initial_unit_value.vary fin2 P.final_unit_value.vary)
      "erf" true 100 pts ht (Or.inl rfl)]
  dsimp only
  simp only [Bool.false_eq_true, if_false, ite_false]
  exact ⟨_, _, _, rfl⟩

/-- Claim C8: calling `diffusion3Dwb_params` with a first ray-path entry
that is neither of the two valid letters for the a-profile (for example
`'a'`, the profile's own axis) fails with the descriptive error naming the
allowed values, and produces no whole-block profile result. -/
theorem claim_C8 (P : Params3D) (dx dy : Option (List (List ℝ)))
    (r0 r1 r2 m : String) (inf pts : ℕ) (ht : 0 ≤ P.time_seconds.value)
    (h0b : r0 ≠ "b") (h0c : r0 ≠ "c") :
    ∃ log : List String,
      diffusion3Dwb_params P dx dy (some [r0, r1, r2]) m inf pts =
        (log, Diffusion3DwbResult.pyNone) ∧
      "raypaths[0] for profile || a must be \"b\" or \"c\"" ∈ log := by
  obtain ⟨v, sps, spos, hnpi⟩ := diffusion3Dnpi_params_success P m true inf pts ht
  simp only [diffusion3Dwb_params]
  rw [hnpi]
  dsimp only
  simp only [List.getD_cons_zero, List.getD_cons_succ]
  rw [if_neg (not_or.mpr ⟨h0b, h0c⟩)]
  exact ⟨_, rfl, by simp⟩

/-- Witness for C8 at a concrete call with `raypaths[0] = 'a'`. -/
theorem claim_C8_witness :
    ∃ log : List String,
      diffusion3Dwb_params (params_setup3D [100, 100, 100] [-13, -13, -13]
          3600 1 0 false false [true, true, true] false false)
        none none (some ["a", "a", "b"]) "erf" 100 5 =
        (log, Diffusion3DwbResult.pyNone) ∧
      "raypaths[0] for profile || a must be \"b\" or \"c\"" ∈ log :=
  claim_C8 (params_setup3D [100, 100, 100] [-13, -13, -13] 3600 1 0 false
      false [true, true, true] false false) none none "a" "a" "b" "erf" 100 5
    (by simp [params_setup3D]) (by decide) (by decide)

/-! ### numpy argmin -/

theorem np_argmin_go_spec (l : List ℝ) : ∀ (i bi : ℕ) (bv : ℝ),
    (np_argmin_go l i bi bv = bi ∧ ∀ x ∈ l, bv ≤ x) ∨
    (∃ j, j < l.length ∧ np_argmin_go l i bi bv = i + j ∧
      (∀ x ∈ l, l.getD j 0 ≤ x) ∧ l.getD j 0 < bv) := by
  induction l with
  | nil =>
    intro i bi bv
    left
    exact ⟨rfl, by simp⟩
  | cons a rest ih =>
    intro i bi bv
    by_cases hab : a < bv
    · rcases ih (i + 1) i a with ⟨heq, hall⟩ | ⟨j, hj, heq, hall, hlt⟩
      · right
        refine ⟨0, by simp, ?_, ?_, ?_⟩
        · simp [np_argmin_go, hab, heq]
        · intro x hx
          rcases List.mem_cons.mp hx with h | h
          · simp [h]
          · simpa using hall x h
        · simpa using hab
      · right
        refine ⟨j + 1, by simpa using hj, ?_, ?_, ?_⟩
        · simp only [np_argmin_go, if_pos hab, heq]
          omega
        · intro x hx
          rcases List.mem_cons.mp hx with h | h
          · subst h
            simpa using le_of_lt hlt
          · simpa using hall x h
        · simpa using lt_trans hlt hab
    · rcases ih (i + 1) bi bv with ⟨heq, hall⟩ | ⟨j, hj, heq, hall, hlt⟩
      · left
        constructor
        · simp [np_argmin_go, hab, heq]
        · intro x hx
          rcases List.mem_cons.mp hx with h | h
          · subst h
            exact not_lt.mp hab
          · exact hall x h
      · right
        refine ⟨j + 1, by simpa using hj, ?_, ?_, ?_⟩
        · simp only [np_argmin_go, if_neg hab, heq]
          omega
        · intro x hx
          rcases List.mem_cons.mp hx with h | h
          · subst h
            simpa using le_trans (le_of_lt hlt) (not_lt.mp hab)
          · simpa using hall x h
        · simpa using hlt

theorem np_argmin_lt_length (l : List ℝ) (hl : l ≠ []) :
    np_argmin l < l.length := by
  cases l with
  | nil => simp at hl
  | cons a rest =>
    rcases np_argmin_go_spec rest 1 0 a with ⟨heq, _⟩ | ⟨j, hj, heq, _, _⟩
    · simp [np_argmin, heq]
    · simp only [np_argmin, heq, List.length_cons]
      omega

theorem np_argmin_min (l : List ℝ) (i : ℕ) (hi : i < l.length) :
    l.getD (np_argmin l) 0 ≤ l.getD i 0 := by
  cases l with
  | nil => simp at hi
  | cons a rest =>
    have hmem : (a :: rest).getD i 0 ∈ a :: rest := by
      rw [List.getD_eq_getElem?_getD, List.getElem?_eq_getElem hi]
      exact List.getElem_mem hi
    rcases np_argmin_go_spec rest 1 0 a with ⟨heq, hall⟩ | ⟨j, hj, heq, hall, hlt⟩
    · simp only [np_argmin, heq, List.getD_cons_zero]
      rcases List.mem_cons.mp hmem with h | h
      · rw [h]
      · exact hall _ h
    · simp only [np_argmin, heq]
      rw [show 1 + j = j + 1 by omega, List.getD_cons_succ]
      rcases List.mem_cons.mp hmem with h | h
      · rw [h]
        exact le_of_lt hlt
      · exact hall _ h

theorem getD_range_map_list (f : ℕ → List ℝ) (n i : ℕ) (h : i < n) :
    ((List.range n).map f).getD i [] = f i := by
  rw [List.getD_eq_getElem?_getD, List.getElem?_map, List.getElem?_range h]
  rfl

theorem getD_map_fun (l : List ℝ) (f : ℝ → ℝ) (i : ℕ) (hi : i < l.length) :
    (l.map f).getD i 0 = f (l.getD i 0) := by
  rw [List.getD_eq_getElem?_getD, List.getElem?_map,
    List.getElem?_eq_getElem hi]
  rw [List.getD_eq_getElem?_getD, List.getElem?_eq_getElem hi]
  rfl

/-- Claim C2: in fitting mode (matching data shapes, three profile
directions, valid ray paths, non-negative time), `diffusion3Dwb_params`
returns one flat residual vector, concatenated over the directions a, b, c
in this order; the residual for observed point `pos` of direction `k` is
the model whole-block value at the dense-grid index nearest the observed
position minus the observed value.  The whole-block values are pinned to
the model: `v` is the dense 3D field returned by the inner
`diffusion3Dnpi_params` call (first conjunct), and the minuend table is the
raypath-selected centerline cut of the corresponding axis-mean plane of `v`
(mean over `e` for ray path `b`, over `f` for `c`, over `d` for `a`, cut at
the middle index `pts / 2`).  The chosen index is in range and minimises
the distance to the observed position over the whole dense grid. -/
theorem claim_C2 (P : Params3D) (dx dy : List (List ℝ)) (r0 r1 r2 m : String)
    (inf pts : ℕ) (ht : 0 ≤ P.time_seconds.value) (hpts : 0 < pts)
    (hdx3 : dx.length = 3) (h0 : r0 = "b" ∨ r0 = "c")
    (h1 : r1 = "a" ∨ r1 = "c") (h2 : r2 = "a" ∨ r2 = "b")
    (hshape : dx.map List.length = dy.map List.length) :
    ∃ (v : ℕ → ℕ → ℕ → ℝ) (sps spos : List (List ℝ)),
      diffusion3Dnpi_params P none none m true inf pts =
        ([], Diffusion3DnpiResult.success v sps spos) ∧
      diffusion3Dwb_params P (some dx) (some dy) (some [r0, r1, r2]) m inf
        pts =
        (["fitting to data"], Diffusion3DwbResult.residuals
          (((List.range 3).map fun k =>
            (List.range ((dx.getD k []).length)).map fun pos =>
              (([if r0 = "b" then (List.range pts).map
                  (fun d => (∑ e ∈ Finset.range pts, v d e (pts / 2)) /
                    (pts : ℝ))
                else (List.range pts).map
                  (fun d => (∑ f ∈ Finset.range pts, v d (pts / 2) f) /
                    (pts : ℝ)),
                if r1 = "a" then (List.range pts).map
                  (fun e => (∑ d ∈ Finset.range pts, v d e (pts / 2)) /
                    (pts : ℝ))
                else (List.range pts).map
                  (fun e => (∑ f ∈ Finset.range pts, v (pts / 2) e f) /
                    (pts : ℝ)),
                if r2 = "a" then (List.range pts).map
                  (fun f => (∑ d ∈ Finset.range pts, v d (pts / 2) f) /
                    (pts : ℝ))
                else (List.range pts).map
                  (fun f => (∑ e ∈ Finset.range pts, v (pts / 2) e f) /
                    (pts : ℝ))]).getD k []).getD
                (np_argmin (((wbPositions P.microns3 pts).getD k []).map
                  (fun p => |p - (dx.getD k []).getD pos 0|))) 0 -
                (dy.getD k []).getD pos 0).flatten)) ∧
      ∀ k : ℕ, k < 3 → ∀ pos : ℕ, pos < (dx.getD k []).length →
        np_argmin (((wbPositions P.microns3 pts).getD k []).map
          (fun p => |p - (dx.getD k []).getD pos 0|)) < pts ∧
        ∀ i : ℕ, i < pts →
          |((wbPositions P.microns3 pts).getD k []).getD
              (np_argmin (((wbPositions P.microns3 pts).getD k []).map
                (fun p => |p - (dx.getD k []).getD pos 0|))) 0 -
            (dx.getD k []).getD pos 0| ≤
          |((wbPositions P.microns3 pts).getD k []).getD i 0 -
            (dx.getD k []).getD pos 0| := by
  obtain ⟨v, sps, spos, hnpi⟩ :=
    diffusion3Dnpi_params_success P m true inf pts ht
  have hfit : (dx.map List.length == dy.map List.length) = true := by
    rw [hshape]
    simp
  have hposk : ∀ k : ℕ, k < 3 → (wbPositions P.microns3 pts).getD k [] =
      linspaceList 0 (2 * (P.microns3.getD k 0 / 2)) pts := by
    intro k hk
    unfold wbPositions
    exact getD_range_map_list _ 3 k hk
  refine ⟨v, sps, spos, hnpi, ?_, ?_⟩
  · simp only [diffusion3Dwb_params]
    rw [hnpi]
    dsimp only
    simp only [List.getD_cons_zero, List.getD_cons_succ]
    rw [if_pos h0, if_pos h1, if_pos h2]
    simp only [hfit, if_true, ite_true, Option.getD_some, List.nil_append]
  · intro k hk pos hpos
    have hllen : (linspaceList 0 (2 * (P.microns3.getD k 0 / 2)) pts).length =
        pts := by
      simp [linspaceList]
    have hmaplen : (((wbPositions P.microns3 pts).getD k []).map
        (fun p => |p - (dx.getD k []).getD pos 0|)).length = pts := by
      rw [hposk k hk]
      simp [linspaceList]
    have hne : ((wbPositions P.microns3 pts).getD k []).map
        (fun p => |p - (dx.getD k []).getD pos 0|) ≠ [] := by
      apply List.ne_nil_of_length_pos
      rw [hmaplen]
      exact hpts
    have hargl := np_argmin_lt_length _ hne
    rw [hmaplen] at hargl
    refine ⟨hargl, ?_⟩
    intro i hi
    have hmin := np_argmin_min (((wbPositions P.microns3 pts).getD k []).map
      (fun p => |p - (dx.getD k []).getD pos 0|)) i (by rw [hmaplen]; exact hi)
    rw [getD_map_fun _ _ _ (by rw [hposk k hk] at hargl ⊢; rw [hllen]; exact hargl),
      getD_map_fun _ _ _ (by rw [hposk k hk]; rw [hllen]; exact hi)] at hmin
    exact hmin

/-- Witness for C2 at a concrete whole-block fitting call. -/
theorem claim_C2_witness :
    ∃ (v : ℕ → ℕ → ℕ → ℝ) (sps spos : List (List ℝ)),
      diffusion3Dnpi_params (params_setup3D [100, 100, 100] [-13, -13, -13]
          3600 1 0 false false [true, true, true] false false)
        none none "erf" true 100 2 =
        ([], Diffusion3DnpiResult.success v sps spos) ∧
      diffusion3Dwb_params (params_setup3D [100, 100, 100] [-13, -13, -13]
          3600 1 0 false false [true, true, true] false false)
        (some [[10], [20], [30]]) (some [[0.5], [0.4], [0.3]])
        (some ["b", "a", "a"]) "erf" 100 2 =
        (["fitting to data"], Diffusion3DwbResult.residuals
          (((List.range 3).map fun k =>
            (List.range ((([[10], [20], [30]] : List (List ℝ)).getD k
              []).length)).map fun pos =>
              (([if ("b" : String) = "b" then (List.range 2).map
                  (fun d => (∑ e ∈ Finset.range 2, v d e (2 / 2)) /
                    ((2 : ℕ) : ℝ))
                else (List.range 2).map
                  (fun d => (∑ f ∈ Finset.range 2, v d (2 / 2) f) /
                    ((2 : ℕ) : ℝ)),
                if ("a" : String) = "a" then (List.range 2).map
                  (fun e => (∑ d ∈ Finset.range 2, v d e (2 / 2)) /
                    ((2 : ℕ) : ℝ))
                else (List.range 2).map
                  (fun e => (∑ f ∈ Finset.range 2, v (2 / 2) e f) /
                    ((2 : ℕ) : ℝ)),
                if ("a" : String) = "a" then (List.range 2).map
                  (fun f => (∑ d ∈ Finset.range 2, v d (2 / 2) f) /
                    ((2 : ℕ) : ℝ))
                else (List.range 2).map
                  (fun f => (∑ e ∈ Finset.range 2, v (2 / 2) e f) /
                    ((2 : ℕ) : ℝ))]).getD k []).getD
                (np_argmin (((wbPositions (params_setup3D [100, 100, 100]
                  [-13, -13, -13] 3600 1 0 false false [true, true, true]
                  false false).microns3 2).getD k []).map
                  (fun p => |p - (([[10], [20], [30]] : List (List ℝ)).getD k
                    []).getD pos 0|))) 0 -
                (([[0.5], [0.4], [0.3]] : List (List ℝ)).getD k []).getD pos
                  0).flatten)) ∧
      ∀ k : ℕ, k < 3 →
        ∀ pos : ℕ, pos < (([[10], [20], [30]] : List (List ℝ)).getD k
          []).length →
        np_argmin (((wbPositions (params_setup3D [100, 100, 100]
          [-13, -13, -13] 3600 1 0 false false [true, true, true] false
          false).microns3 2).getD k []).map
          (fun p => |p - (([[10], [20], [30]] : List (List ℝ)).getD k
            []).getD pos 0|)) < 2 ∧
        ∀ i : ℕ, i < 2 →
          |((wbPositions (params_setup3D [100, 100, 100] [-13, -13, -13]
              3600 1 0 false false [true, true, true] false
              false).microns3 2).getD k []).getD
              (np_argmin (((wbPositions (params_setup3D [100, 100, 100]
                [-13, -13, -13] 3600 1 0 false false [true, true, true]
                false false).microns3 2).getD k []).map
                (fun p => |p - (([[10], [20], [30]] : List (List ℝ)).getD k
                  []).getD pos 0|))) 0 -
            (([[10], [20], [30]] : List (List ℝ)).getD k []).getD pos 0| ≤
          |((wbPositions (params_setup3D [100, 100, 100] [-13, -13, -13]
              3600 1 0 false false [true, true, true] false
              false).microns3 2).getD k []).getD i 0 -
            (([[10], [20], [30]] : List (List ℝ)).getD k []).getD pos 0| :=
  claim_C2 (params_setup3D [100, 100, 100] [-13, -13, -13] 3600 1 0 false
      false [true, true, true] false false)
    [[10], [20], [30]] [[0.5], [0.4], [0.3]] "b" "a" "a" "erf" 100 2
    (by simp [params_setup3D]) (by norm_num) rfl (Or.inl rfl) (Or.inl rfl)
    (Or.inl rfl) rfl

end Pynams
